import Mathlib

/-!
Verification of the analytics-dashboard collection pipeline.

This file is a shallow embedding, in Lean 4, of the Python sources under
src/scripts/: the JSON storage layer (data_storage.py together with the
helpers of utils.py), the 14-day gap-fill of the collector (github_api.py),
the retry/rate-limit loop of the HTTP client (github_api.py), and the
per-repository orchestration (collect_data.py).  Python dicts are embedded
as insertion-ordered association lists (updating an existing key keeps its
position, a new key is appended, exactly as CPython dicts behave), calendar
dates either as year/month/day triples (storage layer, which formats them
through strftime) or as day ordinals in ℤ (the gap-fill, which only steps
them by timedelta(days=1)), and the wall clock as an explicit parameter.

Two methods the sources call are not present in the provided files and are
modelled from the specification; each such definition carries a doc comment
starting "Modelled from the spec:".
-/

/-! ## Association lists: the embedding of Python dicts -/

/-- Lookup in an insertion-ordered association list (Python `d[k]` / `d.get(k)`). -/
def lookupA {κ α : Type} [DecidableEq κ] (k : κ) : List (κ × α) → Option α
  | [] => none
  | p :: rest => if p.1 = k then some p.2 else lookupA k rest

/-- Update-or-append (Python `d[k] = v`): an existing key keeps its position,
a new key goes to the end, as in a CPython dict. -/
def insertA {κ α : Type} [DecidableEq κ] (k : κ) (v : α) : List (κ × α) → List (κ × α)
  | [] => [(k, v)]
  | p :: rest => if p.1 = k then (k, v) :: rest else p :: insertA k v rest

/-! ## Dates and key formatting (utils.py)

The storage layer only ever sees dates through `strftime`, so a date is a
year/month/day triple; `format_date_for_data_key` embeds
`date.strftime('%Y-%m-%d')` (utils.py, lines 194-203). -/

structure PDate where
  year : Nat
  month : Nat
  day : Nat
deriving DecidableEq, Repr

/-- Two-digit zero padding, as strftime %m / %d produce. -/
def pad2 (n : Nat) : String := if n < 10 then "0" ++ toString n else toString n

/-- Four-digit zero padding, as strftime %Y produces for common-era years. -/
def pad4 (n : Nat) : String :=
  if n < 10 then "000" ++ toString n
  else if n < 100 then "00" ++ toString n
  else if n < 1000 then "0" ++ toString n
  else toString n

/-- utils.format_date_for_data_key: date.strftime('%Y-%m-%d'). -/
def format_date_for_data_key (d : PDate) : String :=
  pad4 d.year ++ "-" ++ pad2 d.month ++ "-" ++ pad2 d.day

/-- datetime(..., tzinfo=timezone.utc).isoformat() for a midnight datetime. -/
def isoFormat (d : PDate) : String :=
  pad4 d.year ++ "-" ++ pad2 d.month ++ "-" ++ pad2 d.day ++ "T00:00:00+00:00"

def isLeapYear (y : Nat) : Bool := (y % 4 == 0 && y % 100 != 0) || y % 400 == 0

def daysInMonth (y m : Nat) : Nat :=
  if m = 2 then (if isLeapYear y then 29 else 28)
  else if m = 4 ∨ m = 6 ∨ m = 9 ∨ m = 11 then 30
  else 31

/-- Whether datetime(year, month, day) succeeds (datetime.MINYEAR..MAXYEAR). -/
def validDate (y m d : Nat) : Bool :=
  decide (1 ≤ y) && decide (y ≤ 9999) && decide (1 ≤ m) && decide (m ≤ 12) &&
  decide (1 ≤ d) && decide (d ≤ daysInMonth y m)

/-- Chronological encoding of a calendar date; on dates datetime can represent
(month ≤ 12, day ≤ 31) the numeric order coincides with datetime order. -/
def dateVal (d : PDate) : Nat := d.year * 10000 + d.month * 100 + d.day

def dateLe (a b : PDate) : Bool := decide (dateVal a ≤ dateVal b)

/-- Python str.split('-') over the characters: separators are kept as empty
parts, the empty string splits to one empty part. -/
def splitCharsOnDash : List Char → List (List Char)
  | [] => [[]]
  | c :: rest =>
    let ps := splitCharsOnDash rest
    if c = '-' then [] :: ps
    else match ps with
      | [] => [[c]]
      | h :: t => (c :: h) :: t

/-- date_key.split('-') of the source, as a total function on strings. -/
def splitOnDash (s : String) : List String :=
  (splitCharsOnDash s.data).map (fun cs => String.mk cs)

def digitVal (c : Char) : Option Nat :=
  if decide ('0' ≤ c) && decide (c ≤ '9') then some (c.toNat - Char.toNat '0') else none

def parseNatAux : Nat → List Char → Option Nat
  | acc, [] => some acc
  | acc, c :: rest =>
    match digitVal c with
    | some d => parseNatAux (acc * 10 + d) rest
    | none => none

/-- Python int(s) for the digit-only strings date keys are made of: at least
one character, all digits (a signed or padded-with-blanks literal never
arises from strftime keys). -/
def parseNat? (s : String) : Option Nat :=
  match s.data with
  | [] => none
  | l => parseNatAux 0 l

/-! ## The storage layer (data_storage.py, utils.DataFileManager)

One JSON daily-metrics document per repository maps the year (as a string)
to that year's map from date key to the stored counters; a referrers
document maps the month key to a map from referrer name to count.  The
(owner, repo) pair selects the document on disk and plays no further part in
the logic, so the embedding works directly on the document contents. -/

structure MetricEntry where
  views : Nat
  unique_visitors : Nat
  clones : Nat
  unique_cloners : Nat
  timestamp : Nat
deriving DecidableEq, Repr

abbrev YearMap := List (String × MetricEntry)
abbrev DailyDoc := List (String × YearMap)
abbrev MonthMap := List (String × Nat)
abbrev RefDoc := List (String × MonthMap)

/-- utils.DataFileManager.load_daily_data: the whole document, then
`.get(str(year), \x7b\x7d)`. -/
def load_daily_data (doc : DailyDoc) (year : Nat) : YearMap :=
  (lookupA (toString year) doc).getD []

/-- Modelled from the spec: `DataFileManager.save_daily_data` is called by
data_storage.py but absent from the provided utils.py (the file breaks off
after `load_daily_data`).  Per §4.4/§6 the year-document is read-modify-
written wholesale under its year key and the save reports success. -/
def save_daily_data (doc : DailyDoc) (year : Nat) (ymap : YearMap) : DailyDoc × Bool :=
  (insertA (toString year) ymap doc, true)

/-- Modelled from the spec: `DataFileManager.load_referrers_data` is called by
data_storage.py but absent from the provided utils.py; per §6 the referrers
document is loaded wholesale (empty when absent). -/
def load_referrers_data (doc : RefDoc) : RefDoc := doc

/-- Modelled from the spec: `DataFileManager.save_referrers_data` is absent
from the provided utils.py; per §4.4/§6 the document is written wholesale and
the save reports success. -/
def save_referrers_data (doc : RefDoc) : RefDoc × Bool := (doc, true)

/-- AnalyticsDataStorage.store_daily_metrics (data_storage.py, lines 48-80):
loads the year's map, overwrites the entry under
`format_date_for_data_key(date)` with the four counters and a fresh write
timestamp (`now` stands for get_current_utc_timestamp()), saves the document
and returns the save result. -/
def store_daily_metrics (now : Nat) (doc : DailyDoc) (date : PDate)
    (views unique_visitors clones unique_cloners : Nat) : DailyDoc × Bool :=
  let date_key := format_date_for_data_key date
  let daily_data := load_daily_data doc date.year
  let daily' := insertA date_key
    ⟨views, unique_visitors, clones, unique_cloners, now⟩ daily_data
  save_daily_data doc date.year daily'

/-- AnalyticsDataStorage.store_referrers_data (data_storage.py, lines
113-146): for the given month (the call site defaults it to the current
month), adds each incoming count to the existing count when the referrer is
present and stores the incoming count when it is not, then saves. -/
def store_referrers_data (doc : RefDoc) (month : String)
    (referrers : List (String × Nat)) : RefDoc × Bool :=
  let referrers_data := load_referrers_data doc
  let monthMap := (lookupA month referrers_data).getD []
  let monthMap' := referrers.foldl (fun mm p =>
    match lookupA p.1 mm with
    | some c => insertA p.1 (c + p.2) mm
    | none => insertA p.1 p.2 mm) monthMap
  save_referrers_data (insertA month monthMap' referrers_data)

structure DailyMetrics where
  date : String
  views : Nat
  unique_visitors : Nat
  clones : Nat
  unique_cloners : Nat
  timestamp : Nat
deriving DecidableEq, Repr

/-- Stable ascending insertion by the ISO date string, the key
`metrics.sort(key=lambda x: x.date)` sorts by. -/
def insertSortedByDate (x : DailyMetrics) : List DailyMetrics → List DailyMetrics
  | [] => [x]
  | y :: t => if (compare y.date x.date).isLE then y :: insertSortedByDate x t
              else x :: y :: t

def sortByDate (l : List DailyMetrics) : List DailyMetrics :=
  l.foldl (fun acc m => insertSortedByDate m acc) []

/-- One (date_key, data) item of the year map, as the loop body of
get_date_range_metrics treats it: `month, day = date_key.split('-')` raises
ValueError unless the key splits into exactly two parts, `int(...)` raises on
non-numeric parts, `datetime(year, month, day)` raises on an invalid date,
and every such failure lands in the `except (ValueError, KeyError)` that
skips the entry. -/
def parse_range_entry (year : Nat) (startD endD : PDate)
    (p : String × MetricEntry) : Option DailyMetrics :=
  match splitOnDash p.1 with
  | [ms, ds] =>
    match parseNat? ms, parseNat? ds with
    | some m, some d =>
      if validDate year m d then
        let dt : PDate := ⟨year, m, d⟩
        if dateLe startD dt && dateLe dt endD then
          some ⟨isoFormat dt, p.2.views, p.2.unique_visitors, p.2.clones,
                p.2.unique_cloners, p.2.timestamp⟩
        else none
      else none
    | _, _ => none
  | _ => none

/-- AnalyticsDataStorage.get_date_range_metrics (data_storage.py, lines
156-189): scans each year from start_date.year to end_date.year, keeps the
entries whose key parses against that year to a date inside the inclusive
range, and sorts the result ascending by date string. -/
def get_date_range_metrics (doc : DailyDoc) (startD endD : PDate) : List DailyMetrics :=
  let years := (List.range (endD.year + 1 - startD.year)).map (fun i => startD.year + i)
  sortByDate ((years.map (fun y =>
    (load_daily_data doc y).filterMap (parse_range_entry y startD endD))).flatten)

/-- One item of the views pass of store_historical_data (data_storage.py,
lines 276-296): skip an empty timestamp, and create the daily entry through
store_daily_metrics (with zero clones) only when no entry exists for the
date key; the running pair carries (document, success_count). -/
structure RawStoreDay where
  timestamp : Option PDate
  count : Nat
  uniques : Nat
deriving DecidableEq, Repr

def histViewsStep (now : Nat) (st : DailyDoc × Nat) (day : RawStoreDay) : DailyDoc × Nat :=
  match day.timestamp with
  | none => st
  | some date =>
    let date_key := format_date_for_data_key date
    let daily_data := load_daily_data st.1 date.year
    match lookupA date_key daily_data with
    | some _ => st
    | none =>
      let r := store_daily_metrics now st.1 date day.count day.uniques 0 0
      (r.1, if r.2 then st.2 + 1 else st.2)

/-- One item of the clones pass (data_storage.py, lines 299-323): when the
date key exists the entry's clones and unique_cloners fields are assigned in
place, otherwise a zero-views entry is created; the document is saved either
way. -/
def histClonesStep (now : Nat) (st : DailyDoc × Nat) (day : RawStoreDay) : DailyDoc × Nat :=
  match day.timestamp with
  | none => st
  | some date =>
    let date_key := format_date_for_data_key date
    let daily_data := load_daily_data st.1 date.year
    match lookupA date_key daily_data with
    | some e =>
      let daily' := insertA date_key
        { e with clones := day.count, unique_cloners := day.uniques } daily_data
      ((save_daily_data st.1 date.year daily').1, st.2)
    | none =>
      let daily' := insertA date_key ⟨0, 0, day.count, day.uniques, now⟩ daily_data
      ((save_daily_data st.1 date.year daily').1, st.2 + 1)

/-- AnalyticsDataStorage.store_historical_data (data_storage.py, lines
269-330): the views pass then the clones pass, returning whether any day was
newly written (success_count > 0). -/
def store_historical_data (now : Nat) (doc : DailyDoc)
    (views_daily clones_daily : List RawStoreDay) : DailyDoc × Bool :=
  let st1 := views_daily.foldl (histViewsStep now) (doc, 0)
  let st2 := clones_daily.foldl (histClonesStep now) st1
  (st2.1, decide (0 < st2.2))

/-! ## The collector's 14-day gap-fill (github_api.py, lines 255-327)

A per-day API item is a dict with a timestamp, a count and a uniques field;
`_fill_missing_days` only parses the timestamp to a calendar date and steps
dates by timedelta(days=1), so a date is embedded as its day ordinal in ℤ
(`today` stands for datetime.now(timezone.utc).date()).  `timestamp = none`
embeds an item whose timestamp string is empty, which the `if timestamp:`
guard skips. -/

structure RawDay where
  timestamp : Option Int
  count : Nat
  uniques : Nat
deriving DecidableEq, Repr

/-- The `data_by_date` dict of _fill_missing_days: items indexed by parsed
date, a later item for the same date overwriting an earlier one; an item
with an empty timestamp is skipped by the `if timestamp:` guard. -/
def buildDataByDate (daily_data : List RawDay) : List (Int × RawDay) :=
  daily_data.foldl (fun m day =>
    match day.timestamp with
    | some d => insertA d day m
    | none => m) []

/-- GitHubDataCollector._fill_missing_days (github_api.py, lines 292-327):
walk the 14 calendar days from today-13 through today, emitting the indexed
item when one exists and a zero item otherwise. -/
def fill_missing_days (today : Int) (daily_data : List RawDay) : List RawDay :=
  let data_by_date := buildDataByDate daily_data
  (List.range 14).map (fun i : Nat =>
    let d := today - 13 + (i : Int)
    match lookupA d data_by_date with
    | some day => day
    | none => ⟨some d, 0, 0⟩)

/-- GitHubDataCollector.collect_historical_traffic_data (github_api.py, lines
255-290): extract the per-day lists from the two endpoint responses (already
done here) and gap-fill each. -/
def collect_historical_traffic_data (today : Int) (views_daily clones_daily : List RawDay) :
    List RawDay × List RawDay :=
  (fill_missing_days today views_daily, fill_missing_days today clones_daily)

/-! ## The HTTP retry loop (github_api.py, lines 75-177)

`_make_request` is embedded as a deterministic machine over a script that
gives, for each issued GET (one per loop iteration), either a response or a
network-level exception.  `time.time()` is modelled as the constant `now`
(so the backoff jitter `time.time() % 1` is `Int.fract now`), and every
sleep is recorded as an event rather than performed.  The loop state carries
the client's rate-limit bookkeeping. -/

structure ScriptedResponse where
  status : Nat
  /-- whether 'rate limit' occurs in response.text.lower() -/
  rateLimitText : Bool
  /-- the X-RateLimit-Remaining header -/
  remainingHeader : Option Nat
  /-- the X-RateLimit-Reset header, epoch seconds -/
  resetHeader : Option Nat
  /-- the decoded JSON body, abstracted to a number -/
  body : Nat
deriving DecidableEq, Repr

inductive AttemptOutcome where
  | response (r : ScriptedResponse)
  | netError
deriving DecidableEq, Repr

inductive ReqError where
  | forbidden
  | notFound
  | serverError (code : Nat)
  | httpError (code : Nat)
  | netExhausted
  | exhausted
deriving DecidableEq, Repr

inductive HttpEvent where
  | lowQuotaWait (d : ℚ)
  | spacingSleep (d : ℚ)
  | backoff (attempt : Nat) (d : ℚ)
  | rateLimitWait (d : ℚ)
deriving DecidableEq, Repr

def isBackoff : HttpEvent → Bool
  | .backoff _ _ => true
  | _ => false

def isRateLimitWait : HttpEvent → Bool
  | .rateLimitWait _ => true
  | _ => false

structure RlState where
  remaining : Nat
  reset : Option Nat
  lastRequestTime : ℚ
deriving DecidableEq, Repr

/-- GitHubAPIClient._check_rate_limit (lines 149-156): when fewer than 10
calls remain and the reset time lies in the future, sleep until one second
past it. -/
def checkRateLimitEvents (s : RlState) (now : ℚ) : List HttpEvent :=
  if s.remaining < 10 then
    match s.reset with
    | some r => if (0 : ℚ) < (r : ℚ) - now then [.lowQuotaWait ((r : ℚ) - now + 1)] else []
    | none => []
  else []

/-- The 100ms minimum spacing of lines 84-87. -/
def spacingEvents (s : RlState) (now : ℚ) : List HttpEvent :=
  if now - s.lastRequestTime < 1/10 then [.spacingSleep (1/10 - (now - s.lastRequestTime))] else []

/-- GitHubAPIClient._update_rate_limit_info (lines 158-165): remaining
defaults to 5000 when the header is absent; reset is only overwritten when
the header is present. -/
def updateRateLimitInfo (s : RlState) (r : ScriptedResponse) (now : ℚ) : RlState :=
  { remaining := r.remainingHeader.getD 5000,
    reset := match r.resetHeader with
             | some t => some t
             | none => s.reset,
    lastRequestTime := now }

/-- GitHubAPIClient._handle_rate_limit (lines 167-177): sleep
max(reset − now + 1, 0) when the reset header is present, 60 seconds
otherwise. -/
def rateLimitWaitDuration (resetHeader : Option Nat) (now : ℚ) : ℚ :=
  match resetHeader with
  | some t => max ((t : ℚ) - now + 1) 0
  | none => 60

/-- The body of `for attempt in range(max_retries + 1)` in _make_request
(lines 78-145), one constructor case per branch of the Python dispatch;
falling out of the loop is the final raise of line 147. -/
def makeRequestLoop (script : Nat → AttemptOutcome) (now : ℚ) (maxRetries : Nat) :
    List Nat → RlState → List HttpEvent × Except ReqError Nat
  | [], _ => ([], .error .exhausted)
  | a :: rest, s =>
    let ev := checkRateLimitEvents s now ++ spacingEvents s now
    match script a with
    | .netError =>
      if a < maxRetries then
        let next := makeRequestLoop script now maxRetries rest s
        (ev ++ [.backoff a ((2 : ℚ) ^ a + Int.fract now)] ++ next.1, next.2)
      else (ev, .error .netExhausted)
    | .response r =>
      let s' := updateRateLimitInfo s r now
      if r.status = 200 then (ev, .ok r.body)
      else if r.status = 403 then
        if r.rateLimitText then
          let next := makeRequestLoop script now maxRetries rest s'
          (ev ++ [.rateLimitWait (rateLimitWaitDuration r.resetHeader now)] ++ next.1, next.2)
        else (ev, .error .forbidden)
      else if r.status = 404 then (ev, .error .notFound)
      else if 500 ≤ r.status then
        if a < maxRetries then
          let next := makeRequestLoop script now maxRetries rest s'
          (ev ++ [.backoff a ((2 : ℚ) ^ a + Int.fract now)] ++ next.1, next.2)
        else (ev, .error (.serverError r.status))
      else (ev, .error (.httpError r.status))

/-- GitHubAPIClient._make_request with its initial rate-limit state
(remaining 5000, no reset time, last_request_time 0). -/
def makeRequest (script : Nat → AttemptOutcome) (now : ℚ) (maxRetries : Nat) :
    List HttpEvent × Except ReqError Nat :=
  makeRequestLoop script now maxRetries (List.range (maxRetries + 1)) ⟨5000, none, 0⟩

/-- The 500 response used by the retry theorems: no rate-limit text, no
rate-limit headers. -/
def resp500 : ScriptedResponse := ⟨500, false, none, none, 0⟩

/-- A plain 200 response carrying body b. -/
def resp200 (b : Nat) : ScriptedResponse := ⟨200, false, none, none, b⟩

/-- A 403 whose body text signals rate limiting, with the given reset header. -/
def respRl403 (reset : Option Nat) : ScriptedResponse := ⟨403, true, none, reset, 0⟩

/-- The transient failures of the source's retry policy: a network-level
exception (the `except requests.exceptions.RequestException` branch, lines
138-145) or any response with HTTP status ≥ 500 (lines 118-129). -/
def isTransientAttempt : AttemptOutcome → Bool
  | .netError => true
  | .response r => decide (500 ≤ r.status)

/-! ## The orchestrator (collect_data.py, lines 42-134)

The environment scripts, per repository, what the collector and store
return: a raised GitHubAPIError is an `.error` value.  The Boolean a run
produces is paired with the ordered list of pipeline actions it performed,
so that theorems can state which stages ran. -/

structure PyRepository where
  owner : String
  name : String
  enabled : Bool
  /-- Modelled from the spec: §3 gives RepositoryConfig a `last_updated`
  timestamp-or-absent field (absent = never collected); the Repository
  dataclass in the provided config.py lacks the field that
  collect_data.py reads. -/
  last_updated : Option String
deriving DecidableEq, Repr

structure TrafficTotals where
  views : Nat
  unique_visitors : Nat
  clones : Nat
  unique_cloners : Nat
deriving DecidableEq, Repr

structure RepoEnv where
  /-- collect_current_traffic_data: totals, or the propagated client error -/
  currentTraffic : Except ReqError TrafficTotals
  /-- result of store_daily_metrics -/
  storeDailyOk : Bool
  /-- collect_referrers_data: the referrer map, or the propagated error -/
  referrers : Except ReqError (List (String × Nat))
  /-- collect_historical_traffic_data: the two gap-filled series, or error -/
  historical : Except ReqError (List RawDay × List RawDay)

inductive OrchAct where
  | fetchCurrent
  | storeDaily
  | fetchReferrers
  | storeReferrers
  | fetchHistorical
  | storeHistorical
  | updateLastUpdated
deriving DecidableEq, Repr

/-- DataCollectionOrchestrator.collect_repository_data (collect_data.py,
lines 42-96): current traffic is fetched and stored first and a failure of
either ends the run as False (a raised GitHubAPIError is caught by the
function's own except clauses); referrer and historical failures are caught
inside their inner try blocks and only logged; referrers are stored only
when non-empty, historical data only when requested and some series is
non-empty; last_updated is set just before returning True. -/
def collect_repository_data (env : RepoEnv) (include_historical : Bool) :
    Bool × List OrchAct :=
  match env.currentTraffic with
  | .error _ => (false, [.fetchCurrent])
  | .ok _ =>
    if env.storeDailyOk = false then (false, [.fetchCurrent, .storeDaily])
    else
      let refActs : List OrchAct :=
        match env.referrers with
        | .ok rs => if rs.isEmpty then [.fetchReferrers] else [.fetchReferrers, .storeReferrers]
        | .error _ => [.fetchReferrers]
      let histActs : List OrchAct :=
        if include_historical then
          match env.historical with
          | .ok p => if p.1.isEmpty && p.2.isEmpty then [.fetchHistorical]
                     else [.fetchHistorical, .storeHistorical]
          | .error _ => [.fetchHistorical]
        else []
      (true, [.fetchCurrent, .storeDaily] ++ refActs ++ histActs ++ [.updateLastUpdated])

def repoFullName (r : PyRepository) : String := r.owner ++ "/" ++ r.name

/-- Modelled from the spec: ConfigManager.get_enabled_repositories is called
by collect_all_repositories but absent from the provided config.py; §6 asks
only to "iterate enabled repositories" of the configured list, in
configuration order. -/
def get_enabled_repositories (config : List (PyRepository × RepoEnv)) :
    List (PyRepository × RepoEnv) :=
  config.filter (fun p => p.1.enabled)

/-- DataCollectionOrchestrator.collect_all_repositories (collect_data.py,
lines 98-134): for each enabled repository, in configuration order, force
historical collection when the repository has no last_updated, run
collect_repository_data inside a try that converts any escape into a False
result, and record the outcome under "owner/name".  The function is total:
no per-repository outcome can abort the batch. -/
def collect_all_repositories (config : List (PyRepository × RepoEnv))
    (include_historical : Bool) : List (String × Bool) :=
  (get_enabled_repositories config).map (fun p =>
    let is_new_repo := p.1.last_updated.isNone
    let should_include_historical := include_historical || is_new_repo
    (repoFullName p.1, (collect_repository_data p.2 should_include_historical).1))

/-! ## Association-list lemmas -/

theorem lookupA_insertA {κ α : Type} [DecidableEq κ] (k k' : κ) (v : α)
    (l : List (κ × α)) :
    lookupA k (insertA k' v l) = if k' = k then some v else lookupA k l := by
  induction l with
  | nil => simp [insertA, lookupA]
  | cons p rest ih =>
    by_cases h : p.1 = k'
    · simp only [insertA, h, if_pos]
      by_cases hk : k' = k
      · simp [lookupA, hk]
      · simp [lookupA, hk, h, lookupA]
    · simp only [insertA, h, if_neg, ne_eq, not_false_iff]
      by_cases hk : p.1 = k
      · have : ¬ k' = k := fun e => h (e ▸ hk)
        simp [lookupA, hk, this]
      · simp [lookupA, hk, ih]

theorem lookupA_insertA_self {κ α : Type} [DecidableEq κ] (k : κ) (v : α)
    (l : List (κ × α)) : lookupA k (insertA k v l) = some v := by
  simp [lookupA_insertA]

theorem lookupA_insertA_ne {κ α : Type} [DecidableEq κ] {k k' : κ} (v : α)
    (l : List (κ × α)) (h : k' ≠ k) : lookupA k (insertA k' v l) = lookupA k l := by
  simp [lookupA_insertA, h]

theorem lookupA_eq_none_iff {κ α : Type} [DecidableEq κ] (k : κ) (l : List (κ × α)) :
    lookupA k l = none ↔ k ∉ l.map Prod.fst := by
  induction l with
  | nil => simp [lookupA]
  | cons p rest ih =>
    by_cases h : p.1 = k
    · simp [lookupA, h]
    · have h2 : k ≠ p.1 := fun e => h e.symm
      simp [lookupA, h, h2, ih]

theorem keys_insertA_of_mem {κ α : Type} [DecidableEq κ] (k : κ) (v : α)
    (l : List (κ × α)) (h : lookupA k l ≠ none) :
    (insertA k v l).map Prod.fst = l.map Prod.fst := by
  induction l with
  | nil => simp [lookupA] at h
  | cons p rest ih =>
    by_cases hp : p.1 = k
    · simp [insertA, hp]
    · simp only [lookupA, hp, if_neg, ne_eq, not_false_iff] at h
      simp [insertA, hp, ih h]

theorem keys_insertA_of_not_mem {κ α : Type} [DecidableEq κ] (k : κ) (v : α)
    (l : List (κ × α)) (h : lookupA k l = none) :
    (insertA k v l).map Prod.fst = l.map Prod.fst ++ [k] := by
  induction l with
  | nil => simp [insertA]
  | cons p rest ih =>
    by_cases hp : p.1 = k
    · simp [lookupA, hp] at h
    · simp only [lookupA, hp, if_neg, ne_eq, not_false_iff] at h
      simp [insertA, hp, ih h]

theorem mem_keys_insertA {κ α : Type} [DecidableEq κ] (k : κ) (v : α)
    (l : List (κ × α)) : k ∈ (insertA k v l).map Prod.fst := by
  induction l with
  | nil => simp [insertA]
  | cons p rest ih =>
    by_cases hp : p.1 = k <;> simp [insertA, hp, ih]

theorem nodup_keys_insertA {κ α : Type} [DecidableEq κ] (k : κ) (v : α)
    (l : List (κ × α)) (h : (l.map Prod.fst).Nodup) :
    ((insertA k v l).map Prod.fst).Nodup := by
  cases hl : lookupA k l with
  | none =>
    rw [keys_insertA_of_not_mem k v l hl]
    have hk : k ∉ l.map Prod.fst := (lookupA_eq_none_iff k l).mp hl
    simp [List.nodup_append, h, hk]
  | some w =>
    rw [keys_insertA_of_mem k v l (by simp [hl])]
    exact h

/-- Loading the year just stored gives back the stored map with the date key
overwritten: the shared unfolding step of the storage theorems. -/
theorem load_store_daily (now : Nat) (doc : DailyDoc) (date : PDate)
    (v uv c uc : Nat) :
    load_daily_data (store_daily_metrics now doc date v uv c uc).1 date.year
      = insertA (format_date_for_data_key date)
          ⟨v, uv, c, uc, now⟩ (load_daily_data doc date.year) := by
  unfold store_daily_metrics save_daily_data
  simp only [load_daily_data, lookupA_insertA_self, Option.getD_some]

/-! ## The storage claims -/

/-- C1: the round-trip of daily storage fails in the code.
store_daily_metrics keys the entry by format_date_for_data_key, which is
strftime('%Y-%m-%d') — "2024-03-15", not the "MM-DD" the spec states — while
get_date_range_metrics unpacks every key as exactly (month, day), so a
three-part key raises ValueError and is skipped: after a successful store of
(views 5, visitors 2, clones 3, cloners 1) on 2024-03-15, the covering range
query returns the empty list instead of that record. -/
theorem store_daily_roundtrip_fails :
    format_date_for_data_key ⟨2024, 3, 15⟩ = "2024-03-15"
    ∧ (store_daily_metrics 0 [] ⟨2024, 3, 15⟩ 5 2 3 1).2 = true
    ∧ get_date_range_metrics (store_daily_metrics 0 [] ⟨2024, 3, 15⟩ 5 2 3 1).1
        ⟨2024, 3, 1⟩ ⟨2024, 3, 31⟩ = [] := by
  refine ⟨by decide, rfl, by decide⟩

/-- C6: referrer additivity.  For any starting document, storing count c1 and
then count c2 for the same referrer name and month leaves the stored count at
(previous count, 0 if the referrer was absent) + c1 + c2: sequential stores
sum into the stored value, and an absent referrer starts from the incoming
count. -/
theorem store_referrers_data_additive (doc : RefDoc) (month name : String)
    (c1 c2 : Nat) :
    lookupA name ((lookupA month (store_referrers_data doc month [(name, c1)]).1).getD [])
      = some ((lookupA name ((lookupA month doc).getD [])).getD 0 + c1)
    ∧ lookupA name ((lookupA month (store_referrers_data
        (store_referrers_data doc month [(name, c1)]).1 month [(name, c2)]).1).getD [])
      = some ((lookupA name ((lookupA month doc).getD [])).getD 0 + c1 + c2) := by
  unfold store_referrers_data load_referrers_data save_referrers_data
  simp only [List.foldl_cons, List.foldl_nil]
  cases h0 : lookupA name ((lookupA month doc).getD []) with
  | none => simp [h0, lookupA_insertA_self]
  | some c => simp [h0, lookupA_insertA_self]

/-- C7: idempotence of daily storage.  Calling store_daily_metrics twice with
identical arguments (at write times now1 then now2) leaves the year-document
semantically equal after the second call to its state after the first: same
key set, exactly one entry under the date's key, the same four counters in
that entry (only the write timestamp is refreshed), every other key of the
year map untouched, and every other year key of the document untouched. -/
theorem store_daily_metrics_idempotent (now1 now2 : Nat) (doc : DailyDoc)
    (date : PDate) (v uv c uc : Nat)
    (hnd : ((load_daily_data doc date.year).map Prod.fst).Nodup) :
    ((load_daily_data (store_daily_metrics now2
        (store_daily_metrics now1 doc date v uv c uc).1 date v uv c uc).1 date.year).map Prod.fst
      = (load_daily_data (store_daily_metrics now1 doc date v uv c uc).1 date.year).map Prod.fst)
    ∧ (((load_daily_data (store_daily_metrics now2
        (store_daily_metrics now1 doc date v uv c uc).1 date v uv c uc).1 date.year).map
          Prod.fst).count (format_date_for_data_key date) = 1)
    ∧ lookupA (format_date_for_data_key date)
        (load_daily_data (store_daily_metrics now1 doc date v uv c uc).1 date.year)
        = some ⟨v, uv, c, uc, now1⟩
    ∧ lookupA (format_date_for_data_key date)
        (load_daily_data (store_daily_metrics now2
          (store_daily_metrics now1 doc date v uv c uc).1 date v uv c uc).1 date.year)
        = some ⟨v, uv, c, uc, now2⟩
    ∧ (∀ k, k ≠ format_date_for_data_key date →
        lookupA k (load_daily_data (store_daily_metrics now2
          (store_daily_metrics now1 doc date v uv c uc).1 date v uv c uc).1 date.year)
          = lookupA k (load_daily_data (store_daily_metrics now1 doc date v uv c uc).1 date.year))
    ∧ (∀ ys, ys ≠ toString date.year →
        lookupA ys (store_daily_metrics now2
          (store_daily_metrics now1 doc date v uv c uc).1 date v uv c uc).1
          = lookupA ys (store_daily_metrics now1 doc date v uv c uc).1) := by
  have h1 := load_store_daily now1 doc date v uv c uc
  have h2 := load_store_daily now2 (store_daily_metrics now1 doc date v uv c uc).1 date v uv c uc
  have hmem : lookupA (format_date_for_data_key date)
      (load_daily_data (store_daily_metrics now1 doc date v uv c uc).1 date.year) ≠ none := by
    rw [h1, lookupA_insertA_self]; simp
  refine ⟨?_, ?_, ?_, ?_, ?_, ?_⟩
  · rw [h2]
    exact keys_insertA_of_mem _ _ _ hmem
  · rw [h2, keys_insertA_of_mem _ _ _ hmem, h1]
    exact List.count_eq_one_of_mem (nodup_keys_insertA _ _ _ hnd) (mem_keys_insertA _ _ _)
  · rw [h1]; exact lookupA_insertA_self _ _ _
  · rw [h2]; exact lookupA_insertA_self _ _ _
  · intro k hk
    rw [h2]
    exact lookupA_insertA_ne _ _ (fun e => hk e.symm)
  · intro ys hy
    show lookupA ys (save_daily_data (store_daily_metrics now1 doc date v uv c uc).1
      date.year _).1 = _
    unfold save_daily_data
    exact lookupA_insertA_ne _ _ (fun e => hy e.symm)

/-- Concrete instance of C7: two identical stores of 2024-03-15 into an empty
document leave one entry with the stored counters and the later timestamp. -/
theorem store_daily_metrics_idempotent_check :
    lookupA (format_date_for_data_key ⟨2024, 3, 15⟩)
      (load_daily_data (store_daily_metrics 1
        (store_daily_metrics 0 [] ⟨2024, 3, 15⟩ 5 2 3 1).1 ⟨2024, 3, 15⟩ 5 2 3 1).1 2024)
      = some ⟨5, 2, 3, 1, 1⟩ :=
  (store_daily_metrics_idempotent 0 1 [] ⟨2024, 3, 15⟩ 5 2 3 1 (by decide)).2.2.2.1

/-- C8: frame condition of the historical merge.  Processing a clones-entry
for a date whose daily entry already exists rewrites only the clones and
unique_cloners fields of that entry (the record update leaves views and
unique_visitors as they were) and touches no other key of the year map; and a
views-entry for date D followed by a clones-entry for the same D produces the
single combined record carrying both counter groups. -/
theorem store_historical_data_clones_frame (now : Nat) (doc doc0 : DailyDoc)
    (date : PDate) (cv cu v u : Nat) (e : MetricEntry)
    (he : lookupA (format_date_for_data_key date) (load_daily_data doc date.year) = some e)
    (h0 : lookupA (format_date_for_data_key date) (load_daily_data doc0 date.year) = none) :
    (lookupA (format_date_for_data_key date)
        (load_daily_data (store_historical_data now doc [] [⟨some date, cv, cu⟩]).1 date.year)
      = some { e with clones := cv, unique_cloners := cu })
    ∧ (∀ k, k ≠ format_date_for_data_key date →
        lookupA k (load_daily_data (store_historical_data now doc [] [⟨some date, cv, cu⟩]).1 date.year)
          = lookupA k (load_daily_data doc date.year))
    ∧ (lookupA (format_date_for_data_key date)
        (load_daily_data (store_historical_data now doc0
          [⟨some date, v, u⟩] [⟨some date, cv, cu⟩]).1 date.year)
      = some ⟨v, u, cv, cu, now⟩) := by
  have he' : lookupA (format_date_for_data_key date)
      ((lookupA (toString date.year) doc).getD []) = some e := he
  refine ⟨?_, ?_, ?_⟩
  · unfold store_historical_data histClonesStep save_daily_data
    simp only [List.foldl_cons, List.foldl_nil, load_daily_data, he',
      lookupA_insertA_self, Option.getD_some]
  · intro k hk
    unfold store_historical_data histClonesStep save_daily_data
    simp only [List.foldl_cons, List.foldl_nil, load_daily_data, he',
      lookupA_insertA_self, Option.getD_some]
    exact lookupA_insertA_ne _ _ (fun ee => hk ee.symm)
  · have hv : (List.foldl (histViewsStep now) (doc0, 0) [⟨some date, v, u⟩])
        = ((store_daily_metrics now doc0 date v u 0 0).1, 1) := by
      simp only [List.foldl_cons, List.foldl_nil, histViewsStep, h0]
      rfl
    have hkey : lookupA (format_date_for_data_key date)
        (load_daily_data (store_daily_metrics now doc0 date v u 0 0).1 date.year)
        = some ⟨v, u, 0, 0, now⟩ := by
      rw [load_store_daily now doc0 date v u 0 0]
      exact lookupA_insertA_self _ _ _
    unfold store_historical_data
    rw [hv]
    simp only [List.foldl_cons, List.foldl_nil, histClonesStep, hkey, save_daily_data]
    simp only [load_daily_data, lookupA_insertA_self, Option.getD_some]

/-- Concrete instance of C8: a clones-entry for 2024-03-15 attaches clone
counts to the views already stored for that date without erasing them. -/
theorem store_historical_data_clones_frame_check :
    lookupA (format_date_for_data_key ⟨2024, 3, 15⟩)
      (load_daily_data (store_historical_data 9
        [("2024", [("2024-03-15", ⟨7, 2, 0, 0, 5⟩)])] []
        [⟨some ⟨2024, 3, 15⟩, 4, 1⟩]).1 2024)
      = some ⟨7, 2, 4, 1, 5⟩
    ∧ lookupA (format_date_for_data_key ⟨2024, 3, 15⟩)
        (load_daily_data (store_historical_data 9 []
          [⟨some ⟨2024, 3, 15⟩, 8, 3⟩] [⟨some ⟨2024, 3, 15⟩, 4, 1⟩]).1 2024)
        = some ⟨8, 3, 4, 1, 9⟩ := by
  have h := store_historical_data_clones_frame 9
    [("2024", [("2024-03-15", ⟨7, 2, 0, 0, 5⟩)])] [] ⟨2024, 3, 15⟩ 4 1 8 3
    ⟨7, 2, 0, 0, 5⟩ (by decide) (by decide)
  exact ⟨h.1, h.2.2⟩

/-! ## The gap-fill claims -/

/-- Invariant of the `data_by_date` fold: when every item already indexed
carries the date it is indexed by, so does every item after folding more
input through, since the dict is only extended at the key parsed from the
item's own timestamp. -/
theorem lookupA_foldBuild_invariant (l : List RawDay) :
    ∀ (m : List (Int × RawDay)),
      (∀ d' day', lookupA d' m = some day' → day'.timestamp = some d') →
      ∀ d' day', lookupA d' (l.foldl (fun m day =>
        match day.timestamp with
        | some dd => insertA dd day m
        | none => m) m) = some day' → day'.timestamp = some d' := by
  induction l with
  | nil => intro m hm; exact hm
  | cons x rest ih =>
    intro m hm
    simp only [List.foldl_cons]
    apply ih
    intro d' day' hlook
    cases hx : x.timestamp with
    | none => rw [hx] at hlook; exact hm d' day' hlook
    | some dd =>
      rw [hx] at hlook
      rw [lookupA_insertA] at hlook
      by_cases hdd : dd = d'
      · rw [if_pos hdd] at hlook
        cases hlook; rw [hx, hdd]
      · rw [if_neg hdd] at hlook
        exact hm d' day' hlook

/-- Everything looked up in `data_by_date` carries the date it is indexed by. -/
theorem lookupA_buildDataByDate_timestamp (l : List RawDay) (d : Int) (day : RawDay)
    (h : lookupA d (buildDataByDate l) = some day) : day.timestamp = some d := by
  unfold buildDataByDate at h
  exact lookupA_foldBuild_invariant l [] (by intro d' day' hh; simp [lookupA] at hh) d day h

/-- The `data_by_date` fold leaves an untouched key absent. -/
theorem lookupA_foldBuild_none (l : List RawDay) (d : Int)
    (h : ∀ e ∈ l, e.timestamp ≠ some d) :
    ∀ (m : List (Int × RawDay)), lookupA d m = none →
      lookupA d (l.foldl (fun m day =>
        match day.timestamp with
        | some dd => insertA dd day m
        | none => m) m) = none := by
  induction l with
  | nil => intro m hm; exact hm
  | cons x rest ih =>
    intro m hm
    simp only [List.foldl_cons]
    apply ih (fun e he => h e (List.mem_cons_of_mem x he))
    cases hx : x.timestamp with
    | none => exact hm
    | some dd =>
      rw [lookupA_insertA]
      have hne : dd ≠ d := fun e => h x (List.mem_cons_self x rest) (by rw [hx, e])
      rw [if_neg hne]
      exact hm

/-- A date no input item parses to is absent from `data_by_date`. -/
theorem lookupA_buildDataByDate_none (l : List RawDay) (d : Int)
    (h : ∀ e ∈ l, e.timestamp ≠ some d) : lookupA d (buildDataByDate l) = none := by
  unfold buildDataByDate
  exact lookupA_foldBuild_none l d h [] (by simp [lookupA])

/-- The timestamps of a gap-filled series are exactly the trailing window
today-13, ..., today, in order. -/
theorem fill_missing_days_timestamps (today : Int) (l : List RawDay) :
    (fill_missing_days today l).map (fun e => e.timestamp)
      = (List.range 14).map (fun i : Nat => some (today - 13 + (i : Int))) := by
  unfold fill_missing_days
  rw [List.map_map]
  apply List.map_congr_left
  intro i _
  simp only [Function.comp]
  cases hl : lookupA (today - 13 + i) (buildDataByDate l) with
  | none => simp [hl]
  | some day =>
    simp only [hl]
    exact lookupA_buildDataByDate_timestamp l _ day hl

/-- C2: gap-fill completeness.  For every pair of input series and every
current UTC date, both returned series have exactly 14 entries whose
timestamps are, in order, today-13, today-12, ..., today — so they ascend
strictly with no gaps and end on the current date — and every window date
absent from the corresponding input appears as a zero-valued entry. -/
theorem collect_historical_gap_fill (today : Int) (views_daily clones_daily : List RawDay) :
    ((collect_historical_traffic_data today views_daily clones_daily).1.length = 14)
    ∧ ((collect_historical_traffic_data today views_daily clones_daily).2.length = 14)
    ∧ ((collect_historical_traffic_data today views_daily clones_daily).1.map
        (fun e => e.timestamp)
        = (List.range 14).map (fun i : Nat => some (today - 13 + (i : Int))))
    ∧ ((collect_historical_traffic_data today views_daily clones_daily).2.map
        (fun e => e.timestamp)
        = (List.range 14).map (fun i : Nat => some (today - 13 + (i : Int))))
    ∧ (∀ d : Int, today - 13 ≤ d → d ≤ today →
        (∀ e ∈ views_daily, e.timestamp ≠ some d) →
        (⟨some d, 0, 0⟩ : RawDay) ∈ (collect_historical_traffic_data today views_daily clones_daily).1)
    ∧ (∀ d : Int, today - 13 ≤ d → d ≤ today →
        (∀ e ∈ clones_daily, e.timestamp ≠ some d) →
        (⟨some d, 0, 0⟩ : RawDay) ∈ (collect_historical_traffic_data today views_daily clones_daily).2) := by
  have hlen : ∀ l : List RawDay, (fill_missing_days today l).length = 14 := by
    intro l
    have := congrArg List.length (fill_missing_days_timestamps today l)
    simpa using this
  have hzero : ∀ (l : List RawDay) (d : Int), today - 13 ≤ d → d ≤ today →
      (∀ e ∈ l, e.timestamp ≠ some d) →
      (⟨some d, 0, 0⟩ : RawDay) ∈ fill_missing_days today l := by
    intro l d h1 h2 hne
    have hnone := lookupA_buildDataByDate_none l d hne
    have hnn : (0 : Int) ≤ d - (today - 13) := by omega
    have hi : ((d - (today - 13)).toNat : Int) = d - (today - 13) := Int.toNat_of_nonneg hnn
    have hd : today - 13 + ((d - (today - 13)).toNat : Int) = d := by omega
    have hrange : (d - (today - 13)).toNat < 14 := by omega
    have hmem : (d - (today - 13)).toNat ∈ List.range 14 := List.mem_range.mpr hrange
    have hx := List.mem_map_of_mem (fun i : Nat =>
      let dd := today - 13 + (i : Int)
      match lookupA dd (buildDataByDate l) with
      | some day => day
      | none => (⟨some dd, 0, 0⟩ : RawDay)) hmem
    simp only [hd, hnone] at hx
    exact hx
  exact ⟨hlen views_daily, hlen clones_daily,
    fill_missing_days_timestamps today views_daily,
    fill_missing_days_timestamps today clones_daily,
    fun d h1 h2 hne => hzero views_daily d h1 h2 hne,
    fun d h1 h2 hne => hzero clones_daily d h1 h2 hne⟩

/-- C10: window clamping.  Every entry of a gap-filled series carries a date
inside the trailing 14-day window [today-13, today], and an input entry whose
timestamp parses to a date outside that window never appears in the output:
the collector silently discards days older than today-13 (or later than
today). -/
theorem fill_missing_days_window (today : Int) (daily : List RawDay) :
    (∀ e ∈ fill_missing_days today daily,
      ∃ d : Int, e.timestamp = some d ∧ today - 13 ≤ d ∧ d ≤ today)
    ∧ (∀ e ∈ daily, ∀ d : Int, e.timestamp = some d → (d < today - 13 ∨ today < d) →
        e ∉ fill_missing_days today daily) := by
  have h1 : ∀ e ∈ fill_missing_days today daily,
      ∃ d : Int, e.timestamp = some d ∧ today - 13 ≤ d ∧ d ≤ today := by
    intro e he
    have hmem : e.timestamp ∈ (fill_missing_days today daily).map (fun x => x.timestamp) :=
      List.mem_map_of_mem _ he
    rw [fill_missing_days_timestamps today daily] at hmem
    obtain ⟨i, hi, hv⟩ := List.mem_map.mp hmem
    have hi14 : i < 14 := List.mem_range.mp hi
    refine ⟨today - 13 + i, hv.symm, by omega, by omega⟩
  refine ⟨h1, ?_⟩
  intro e _ d hd hout habs
  obtain ⟨d', hd', hl, hr⟩ := h1 e habs
  rw [hd] at hd'
  have : d = d' := by injection hd'
  omega

/-! ## The HTTP retry claims -/

theorem filter_backoff_spacing (s : RlState) (now : ℚ) :
    (spacingEvents s now).filter isBackoff = [] := by
  unfold spacingEvents
  split <;> rfl

theorem filter_backoff_check (s : RlState) (now : ℚ) :
    (checkRateLimitEvents s now).filter isBackoff = [] := by
  unfold checkRateLimitEvents
  by_cases h : s.remaining < 10
  · simp only [if_pos h]
    cases s.reset with
    | none => rfl
    | some r => dsimp only; split <;> rfl
  · simp [h]

theorem filter_rlwait_spacing (s : RlState) (now : ℚ) :
    (spacingEvents s now).filter isRateLimitWait = [] := by
  unfold spacingEvents
  split <;> rfl

theorem filter_rlwait_check (s : RlState) (now : ℚ) :
    (checkRateLimitEvents s now).filter isRateLimitWait = [] := by
  unfold checkRateLimitEvents
  by_cases h : s.remaining < 10
  · simp only [if_pos h]
    cases s.reset with
    | none => rfl
    | some r => dsimp only; split <;> rfl
  · simp [h]

/-- A transient attempt (network-level exception or any HTTP ≥ 500) before
the last loop attempt produces exactly one backoff sleep of
2^attempt + jitter and hands the remaining attempts on, whatever kind of
transient failure it was and whatever the response's headers. -/
theorem makeRequestLoop_transient_step (script : Nat → AttemptOutcome) (now : ℚ)
    (maxR a : Nat) (rest : List Nat) (s : RlState)
    (ha : a < maxR) (ht : isTransientAttempt (script a) = true) :
    ∃ s' : RlState,
      ((makeRequestLoop script now maxR (a :: rest) s).2
        = (makeRequestLoop script now maxR rest s').2)
      ∧ ((makeRequestLoop script now maxR (a :: rest) s).1.filter isBackoff
        = HttpEvent.backoff a ((2 : ℚ) ^ a + Int.fract now)
            :: (makeRequestLoop script now maxR rest s').1.filter isBackoff) := by
  cases hs : script a with
  | netError =>
    refine ⟨s, ?_, ?_⟩ <;>
      simp [makeRequestLoop, hs, ha, List.filter_append, filter_backoff_spacing,
        filter_backoff_check, isBackoff]
  | response r =>
    rw [hs] at ht
    simp only [isTransientAttempt, decide_eq_true_eq] at ht
    have h200 : ¬ r.status = 200 := by omega
    have h403 : ¬ r.status = 403 := by omega
    have h404 : ¬ r.status = 404 := by omega
    refine ⟨updateRateLimitInfo s r now, ?_, ?_⟩ <;>
      simp [makeRequestLoop, hs, ha, ht, h200, h403, h404, List.filter_append,
        filter_backoff_spacing, filter_backoff_check, isBackoff]

/-- A transient attempt that is the last one raises: the netExhausted error
of line 145 for a network-level exception, the serverError of lines 126-129
for an HTTP ≥ 500 response, with no backoff sleep. -/
theorem makeRequestLoop_transient_fail_last (script : Nat → AttemptOutcome)
    (now : ℚ) (maxR a : Nat) (s : RlState) (ha : ¬ a < maxR)
    (ht : isTransientAttempt (script a) = true) :
    ((makeRequestLoop script now maxR [a] s).2
      = Except.error (match script a with
          | .netError => ReqError.netExhausted
          | .response r => ReqError.serverError r.status))
    ∧ ((makeRequestLoop script now maxR [a] s).1.filter isBackoff = []) := by
  cases hs : script a with
  | netError =>
    constructor <;>
      simp [makeRequestLoop, hs, ha, List.filter_append, filter_backoff_spacing,
        filter_backoff_check]
  | response r =>
    rw [hs] at ht
    simp only [isTransientAttempt, decide_eq_true_eq] at ht
    have h200 : ¬ r.status = 200 := by omega
    have h403 : ¬ r.status = 403 := by omega
    have h404 : ¬ r.status = 404 := by omega
    constructor <;>
      simp [makeRequestLoop, hs, ha, ht, h200, h403, h404, List.filter_append,
        filter_backoff_spacing, filter_backoff_check]

/-- C5: retry with backoff on transient failures.  A request whose first two
attempts fail transiently — with a network-level error or any HTTP ≥ 500
response — and whose third attempt returns HTTP 200 yields the third
response's decoded body after exactly two backoff sleeps of 2^attempt plus
the jitter term, which lies in [0, 1); and a request whose
max_retries + 1 = 4 attempts all fail transiently performs the full three
backoff sleeps and only then fails, with the network-exhausted or
server-error outcome of its final attempt. -/
theorem make_request_retries_transient (now : ℚ) (r2 : ScriptedResponse)
    (script1 script2 : Nat → AttemptOutcome)
    (h0 : isTransientAttempt (script1 0) = true)
    (h1 : isTransientAttempt (script1 1) = true)
    (h2 : script1 2 = .response r2) (h200 : r2.status = 200)
    (hall : ∀ a, a ≤ 3 → isTransientAttempt (script2 a) = true) :
    ((makeRequest script1 now 3).2 = .ok r2.body)
    ∧ ((makeRequest script1 now 3).1.filter isBackoff
        = [.backoff 0 ((2 : ℚ) ^ 0 + Int.fract now), .backoff 1 ((2 : ℚ) ^ 1 + Int.fract now)])
    ∧ (0 ≤ Int.fract now ∧ Int.fract now < 1)
    ∧ ((makeRequest script2 now 3).2 = Except.error (match script2 3 with
        | .netError => ReqError.netExhausted
        | .response r => ReqError.serverError r.status))
    ∧ (((makeRequest script2 now 3).1.filter isBackoff).length = 3) := by
  have hrange : List.range 4 = [0, 1, 2, 3] := rfl
  obtain ⟨s1, hres1, htr1⟩ :=
    makeRequestLoop_transient_step script1 now 3 0 [1, 2, 3] ⟨5000, none, 0⟩ (by norm_num) h0
  obtain ⟨s2, hres2, htr2⟩ :=
    makeRequestLoop_transient_step script1 now 3 1 [2, 3] s1 (by norm_num) h1
  have hfin : ((makeRequestLoop script1 now 3 [2, 3] s2).2 = .ok r2.body)
      ∧ ((makeRequestLoop script1 now 3 [2, 3] s2).1.filter isBackoff = []) := by
    constructor <;>
      simp [makeRequestLoop, h2, h200, List.filter_append, filter_backoff_spacing,
        filter_backoff_check]
  obtain ⟨t1, ires1, itr1⟩ :=
    makeRequestLoop_transient_step script2 now 3 0 [1, 2, 3] ⟨5000, none, 0⟩ (by norm_num)
      (hall 0 (by norm_num))
  obtain ⟨t2, ires2, itr2⟩ :=
    makeRequestLoop_transient_step script2 now 3 1 [2, 3] t1 (by norm_num)
      (hall 1 (by norm_num))
  obtain ⟨t3, ires3, itr3⟩ :=
    makeRequestLoop_transient_step script2 now 3 2 [3] t2 (by norm_num)
      (hall 2 (by norm_num))
  have hlast := makeRequestLoop_transient_fail_last script2 now 3 3 t3 (by norm_num)
    (hall 3 (le_refl 3))
  refine ⟨?_, ?_, ⟨Int.fract_nonneg now, Int.fract_lt_one now⟩, ?_, ?_⟩
  · show (makeRequestLoop script1 now 3 (List.range 4) ⟨5000, none, 0⟩).2 = .ok r2.body
    rw [hrange, hres1, hres2, hfin.1]
  · show (makeRequestLoop script1 now 3 (List.range 4) ⟨5000, none, 0⟩).1.filter isBackoff = _
    rw [hrange, htr1, htr2, hfin.2]
  · show (makeRequestLoop script2 now 3 (List.range 4) ⟨5000, none, 0⟩).2 = _
    rw [hrange, ires1, ires2, ires3, hlast.1]
  · show ((makeRequestLoop script2 now 3 (List.range 4) ⟨5000, none, 0⟩).1.filter isBackoff).length = 3
    rw [hrange, itr1, itr2, itr3, hlast.2]
    rfl

/-- Concrete instance of C5: a network error, then a 503, then a 200 with
body 42 succeeds with 42; four straight network errors fail with the
netExhausted error. -/
theorem make_request_retries_transient_check :
    ((makeRequest (fun n => match n with
        | 0 => AttemptOutcome.netError
        | 1 => .response ⟨503, false, none, none, 0⟩
        | _ => .response (resp200 42)) 0 3).2 = .ok 42)
    ∧ ((makeRequest (fun _ => AttemptOutcome.netError) 0 3).2
        = Except.error ReqError.netExhausted) := by
  have h := make_request_retries_transient 0 (resp200 42)
    (fun n => match n with
      | 0 => AttemptOutcome.netError
      | 1 => .response ⟨503, false, none, none, 0⟩
      | _ => .response (resp200 42))
    (fun _ => AttemptOutcome.netError) rfl rfl rfl rfl (fun a _ => rfl)
  exact ⟨h.1, h.2.2.2.1⟩

/-- C4 counterexample: a rate-limited 403 does consume a retry-budget slot.
With responses [403-rate-limited, 500, 500, 500, 200] the request fails (the
403 used up one of the four loop attempts, so the fourth 500 exhausts the
budget before the 200 is reached), while the same tail [500, 500, 500, 200]
without the leading 403 succeeds with the 200's body — so the 403 did reduce
the attempts available for server errors, contradicting the claim. -/
theorem rate_limit_403_consumes_attempt_cex :
    ((makeRequest (fun n => match n with
        | 0 => .response (respRl403 none)
        | 4 => .response (resp200 7)
        | _ => .response resp500) 100 3).2 = .error (.serverError 500))
    ∧ ((makeRequest (fun n => match n with
        | 3 => .response (resp200 7)
        | _ => .response resp500) 100 3).2 = .ok 7) := by
  constructor
  · rfl
  · rfl

/-- C4 (amended): on an HTTP 403 whose body signals rate limiting,
_make_request waits max(reset − now + 1, 0) seconds when the X-RateLimit-Reset
header is present and 60 seconds when it is absent, and then retries — but
the retry consumes one of the max_retries + 1 loop attempts: four such
responses in a row produce exactly four waits and then fail with the
exhausted-retries error. -/
theorem rate_limit_403_waits_and_retries (now : ℚ) (t : Nat)
    (script scriptN : Nat → AttemptOutcome)
    (hs : ∀ a, a ≤ 3 → script a = .response (respRl403 (some t)))
    (hn : ∀ a, a ≤ 3 → scriptN a = .response (respRl403 none)) :
    ((makeRequest script now 3).1.filter isRateLimitWait
      = List.replicate 4 (.rateLimitWait (max ((t : ℚ) - now + 1) 0)))
    ∧ ((makeRequest script now 3).2 = .error .exhausted)
    ∧ ((makeRequest scriptN now 3).1.filter isRateLimitWait
      = List.replicate 4 (.rateLimitWait 60))
    ∧ ((makeRequest scriptN now 3).2 = .error .exhausted) := by
  have s0 := hs 0 (by norm_num)
  have s1 := hs 1 (by norm_num)
  have s2 := hs 2 (by norm_num)
  have s3 := hs 3 (le_refl 3)
  have n0 := hn 0 (by norm_num)
  have n1 := hn 1 (by norm_num)
  have n2 := hn 2 (by norm_num)
  have n3 := hn 3 (le_refl 3)
  have hrange : List.range 4 = [0, 1, 2, 3] := rfl
  refine ⟨?_, ?_, ?_, ?_⟩
  · simp [makeRequest, hrange, makeRequestLoop, s0, s1, s2, s3, respRl403,
      updateRateLimitInfo, rateLimitWaitDuration, List.filter_append,
      filter_rlwait_spacing, filter_rlwait_check, isRateLimitWait,
      List.replicate]
  · simp [makeRequest, hrange, makeRequestLoop, s0, s1, s2, s3, respRl403,
      updateRateLimitInfo]
  · simp [makeRequest, hrange, makeRequestLoop, n0, n1, n2, n3, respRl403,
      updateRateLimitInfo, rateLimitWaitDuration, List.filter_append,
      filter_rlwait_spacing, filter_rlwait_check, isRateLimitWait,
      List.replicate]
  · simp [makeRequest, hrange, makeRequestLoop, n0, n1, n2, n3, respRl403,
      updateRateLimitInfo]

/-- Concrete instance of the amended C4: four rate-limited 403s exhaust the
request with no success. -/
theorem rate_limit_403_waits_and_retries_check :
    ((makeRequest (fun _ => .response (respRl403 (some 0))) 0 3).2 = .error .exhausted)
    ∧ ((makeRequest (fun _ => .response (respRl403 none)) 0 3).2 = .error .exhausted) := by
  have h := rate_limit_403_waits_and_retries 0 0
    (fun _ => .response (respRl403 (some 0)))
    (fun _ => .response (respRl403 none))
    (fun a _ => rfl) (fun a _ => rfl)
  exact ⟨h.2.1, h.2.2.2⟩

/-! ## The orchestrator claims -/

theorem getq_map {α β : Type} (f : α → β) (l : List α) (i : Nat) :
    (l.map f)[i]? = (l[i]?).map f := by
  induction l generalizing i with
  | nil => simp
  | cons x rest ih =>
    cases i with
    | zero => simp
    | succ j => simp [ih j]

/-- A failing current-traffic fetch, or a failing daily store, makes
collect_repository_data return False whatever else the environment holds. -/
theorem collect_repository_data_false_on_failure (env : RepoEnv) (b : Bool) :
    (∀ e, env.currentTraffic = Except.error e → (collect_repository_data env b).1 = false)
    ∧ (env.storeDailyOk = false → (collect_repository_data env b).1 = false) := by
  constructor
  · intro e he
    simp [collect_repository_data, he]
  · intro hsf
    cases hc : env.currentTraffic with
    | error e => simp [collect_repository_data, hc]
    | ok td => simp [collect_repository_data, hc, hsf]

/-- C3: per-repository failure isolation.  collect_all_repositories is a
total function (no per-repository outcome can make it raise), its result has
one entry per enabled repository, in configuration order; the entry at each
position depends only on that repository's own environment; and an enabled
repository whose current-traffic fetch raises (for example a 404) or whose
daily store fails is recorded as failed while every other configured
repository still contributes its own entry. -/
theorem collect_all_repositories_isolates_failures
    (config : List (PyRepository × RepoEnv)) (include_historical : Bool) :
    ((collect_all_repositories config include_historical).length
      = (get_enabled_repositories config).length)
    ∧ ((collect_all_repositories config include_historical).map Prod.fst
      = (get_enabled_repositories config).map (fun p => repoFullName p.1))
    ∧ (∀ (i : Nat) (p : PyRepository × RepoEnv),
        (get_enabled_repositories config)[i]? = some p →
        (collect_all_repositories config include_historical)[i]?
          = some (repoFullName p.1,
              (collect_repository_data p.2
                (include_historical || p.1.last_updated.isNone)).1))
    ∧ (∀ p ∈ config, p.1.enabled = true →
        (∀ e, p.2.currentTraffic = Except.error e →
          (repoFullName p.1, false) ∈ collect_all_repositories config include_historical)
        ∧ (p.2.storeDailyOk = false →
          (repoFullName p.1, false) ∈ collect_all_repositories config include_historical)) := by
  refine ⟨?_, ?_, ?_, ?_⟩
  · unfold collect_all_repositories
    rw [List.length_map]
  · unfold collect_all_repositories
    rw [List.map_map]
    rfl
  · intro i p hp
    unfold collect_all_repositories
    rw [getq_map, hp]
    rfl
  · intro p hp hen
    have hmem : p ∈ get_enabled_repositories config := by
      unfold get_enabled_repositories
      exact List.mem_filter.mpr ⟨hp, by simp [hen]⟩
    have hinres := List.mem_map_of_mem (fun p : PyRepository × RepoEnv =>
      (repoFullName p.1, (collect_repository_data p.2
        (include_historical || p.1.last_updated.isNone)).1)) hmem
    constructor
    · intro e he
      have hval := (collect_repository_data_false_on_failure p.2
        (include_historical || p.1.last_updated.isNone)).1 e he
      exact hval ▸ hinres
    · intro hsf
      have hval := (collect_repository_data_false_on_failure p.2
        (include_historical || p.1.last_updated.isNone)).2 hsf
      exact hval ▸ hinres

/-- C9: forced backfill for new repositories.  For an enabled repository
whose configuration has no last_updated, the historical flag the orchestrator
passes down is true even when include_historical was not set; when the
current-traffic fetch and store succeed the run therefore performs the
historical fetch; and the recorded outcome equals the one computed with the
flag forced to true. -/
theorem new_repository_forces_historical
    (config : List (PyRepository × RepoEnv)) (include_historical : Bool)
    (i : Nat) (p : PyRepository × RepoEnv)
    (hp : (get_enabled_repositories config)[i]? = some p)
    (hnew : p.1.last_updated = none)
    (td : TrafficTotals)
    (hcur : p.2.currentTraffic = Except.ok td)
    (hstore : p.2.storeDailyOk = true) :
    ((include_historical || p.1.last_updated.isNone) = true)
    ∧ (OrchAct.fetchHistorical ∈
        (collect_repository_data p.2 (include_historical || p.1.last_updated.isNone)).2)
    ∧ ((collect_all_repositories config include_historical)[i]?
        = some (repoFullName p.1, (collect_repository_data p.2 true).1)) := by
  have hforce : (include_historical || p.1.last_updated.isNone) = true := by
    simp [hnew]
  refine ⟨hforce, ?_, ?_⟩
  · rw [hforce]
    unfold collect_repository_data
    rw [hcur]
    have hsd : ¬ (p.2.storeDailyOk = false) := by simp [hstore]
    rw [if_neg hsd]
    dsimp only
    refine List.mem_append.mpr (Or.inl (List.mem_append.mpr (Or.inr ?_)))
    rw [if_pos rfl]
    cases hh : p.2.historical with
    | ok q => dsimp only; split <;> simp
    | error e => simp
  · unfold collect_all_repositories
    rw [getq_map, hp]
    simp [hforce]

/-- Concrete instance of C9: a repository with no last_updated, collected
with include_historical off, still fetches historical data and its outcome is
recorded. -/
theorem new_repository_forces_historical_check :
    ((false || ((none : Option String)).isNone) = true)
    ∧ (OrchAct.fetchHistorical ∈
        (collect_repository_data
          ⟨Except.ok ⟨1, 1, 1, 1⟩, true, Except.error ReqError.notFound, Except.ok ([], [])⟩
          (false || ((none : Option String)).isNone)).2)
    ∧ ((collect_all_repositories
          [(⟨"o", "a", true, none⟩,
            ⟨Except.ok ⟨1, 1, 1, 1⟩, true, Except.error ReqError.notFound, Except.ok ([], [])⟩)]
          false)[0]?
        = some (repoFullName ⟨"o", "a", true, none⟩,
            (collect_repository_data
              ⟨Except.ok ⟨1, 1, 1, 1⟩, true, Except.error ReqError.notFound, Except.ok ([], [])⟩
              true).1)) :=
  new_repository_forces_historical
    [(⟨"o", "a", true, none⟩,
      ⟨Except.ok ⟨1, 1, 1, 1⟩, true, Except.error ReqError.notFound, Except.ok ([], [])⟩)]
    false 0
    (⟨"o", "a", true, none⟩,
      ⟨Except.ok ⟨1, 1, 1, 1⟩, true, Except.error ReqError.notFound, Except.ok ([], [])⟩)
    rfl rfl ⟨1, 1, 1, 1⟩ rfl rfl
